import Mathlib

/-!
Shallow embedding of `src/classic.py` (1inch swap orchestration service).

Python dictionaries holding transaction payloads are embedded as a `Tx`
structure of optional fields; JSON scalar values that reach the numeric
fields are embedded as `PyVal` (a Python `int`, `str`, or `None`).
External effects (the 1inch HTTP API, the chain RPC node, signing) are
embedded as an `Env` record of per-call-site responses: each `Except`
field is the value the call returns, with `Except.error` standing for the
Python exception that call would raise.

The third-party `Web3.to_checksum_address` (eth_utils EIP-55
checksumming) is embedded with the keccak hash abstracted as a parameter
`hi : List Char → Nat → Bool`, where `hi body i` tells whether the i-th
nibble of keccak(lowercased hex body) is ≥ 8; every property proved about
it holds for any such hash, in particular the real keccak.  Address
validation failures (malformed hex raising inside eth_utils) are not
modelled: the function is totalized, and no claim below depends on that
raise.
-/

/-- A Python scalar value as it appears in the JSON transaction payloads:
an arbitrary-precision `int`, a `str`, or `None`. -/
inductive PyVal where
  | intV : Int → PyVal
  | strV : String → PyVal
  | noneV : PyVal
deriving DecidableEq, Repr

/-- The transaction dictionary built by the service, embedded as a record of
optional fields (a missing field is `Option.none`, mirroring absence of the
key in the Python dict). -/
structure Tx where
  toAddr : Option PyVal := Option.none
  fromAddr : Option PyVal := Option.none
  dataF : Option PyVal := Option.none
  value : Option PyVal := Option.none
  gas : Option PyVal := Option.none
  gasPrice : Option PyVal := Option.none
  nonce : Option PyVal := Option.none
  chainId : Option PyVal := Option.none
deriving DecidableEq, Repr

/-- Value of a decimal digit character, `Option.none` for non-digits
(48 is the code of the digit 0). -/
def decDigit? (c : Char) : Option Nat :=
  if c ≤ '9' ∧ '0' ≤ c then some (c.toNat - 48) else Option.none

/-- Value of a hexadecimal digit character (either case), `Option.none`
otherwise; 87 and 55 are the codes of a and A shifted by ten. -/
def hexDigit? (c : Char) : Option Nat :=
  if c ≤ '9' ∧ '0' ≤ c then some (c.toNat - 48)
  else if c ≤ 'f' ∧ 'a' ≤ c then some (c.toNat - 87)
  else if c ≤ 'F' ∧ 'A' ≤ c then some (c.toNat - 55)
  else Option.none

/-- Accumulating base-10 parse of a digit run. -/
def decNatAux : List Char → Nat → Option Nat
  | [], acc => some acc
  | c :: cs, acc => (decDigit? c).bind (fun d => decNatAux cs (acc * 10 + d))

/-- Base-10 parse of a non-empty digit run. -/
def decNat? : List Char → Option Nat
  | [] => Option.none
  | cs => decNatAux cs 0

/-- Accumulating base-16 parse of a hex-digit run. -/
def hexNatAux : List Char → Nat → Option Nat
  | [], acc => some acc
  | c :: cs, acc => (hexDigit? c).bind (fun d => hexNatAux cs (acc * 16 + d))

/-- Base-16 parse of a non-empty hex-digit run. -/
def hexNat? : List Char → Option Nat
  | [] => Option.none
  | cs => hexNatAux cs 0

/-- `s.startswith("0x")` on a character list. -/
def startsWith0xL : List Char → Bool
  | c1 :: c2 :: _ => c1 == '0' && c2 == 'x'
  | _ => false

/-- Python `int(s)` (base 10) on the character list: optional sign then a
non-empty digit run; `Option.none` stands for the `ValueError` Python
raises. -/
def pyIntOfCharsDec : List Char → Option Int
  | [] => Option.none
  | c :: rest =>
    if c == '-' then (decNat? rest).map (fun n => -(n : Int))
    else if c == '+' then (decNat? rest).map (fun n => (n : Int))
    else (decNat? (c :: rest)).map (fun n => (n : Int))

/-- Python `int(s)` (base 10). -/
def pyIntOfString (s : String) : Option Int :=
  pyIntOfCharsDec s.toList

/-- Python `int(s, 16)` on the character list: an optional `0x`/`0X`
prefix then a non-empty run of hex digits (the call site only reaches
this with a `0x` prefix). -/
def pyIntOfChars16 : List Char → Option Int
  | c1 :: c2 :: rest =>
    if c1 == '0' && (c2 == 'x' || c2 == 'X') then (hexNat? rest).map (fun n => (n : Int))
    else (hexNat? (c1 :: c2 :: rest)).map (fun n => (n : Int))
  | l => (hexNat? l).map (fun n => (n : Int))

/-- Python `int(s, 16)`. -/
def pyIntOfString16 (s : String) : Option Int :=
  pyIntOfChars16 s.toList

/-- Wrap a parse result as the converted field value, with the raised
error message on parse failure. -/
def intResult (o : Option Int) (msg : String) : Except String PyVal :=
  match o with
  | some n => .ok (.intV n)
  | Option.none => .error msg

/-- One step of the numeric-normalization loop of `classic.py` lines
166-168: `int(x, 16)` when the value is a string with a `0x` prefix,
otherwise `int(x)`; an `intV` is already an `int` and is kept (the loop
skips it via `isinstance(..., int)`).  `Except.error` stands for the
`ValueError`/`TypeError` the conversion would raise. -/
def toIntField (v : PyVal) : Except String PyVal :=
  match v with
  | .intV n => .ok (.intV n)
  | .strV s =>
    if startsWith0xL s.toList then intResult (pyIntOfString16 s) "ValueError: invalid hex literal"
    else intResult (pyIntOfString s) "ValueError: invalid decimal literal"
  | .noneV => .error "TypeError: int of NoneType"

/-- Lift a converted scalar back into a present dict entry. -/
def okSome : Except String PyVal → Except String (Option PyVal)
  | .ok w => .ok (some w)
  | .error e => .error e

/-- Apply the numeric normalization to one optional dict entry (absent
keys are skipped by the `if key in transaction` guard). -/
def convertField : Option PyVal → Except String (Option PyVal)
  | Option.none => .ok Option.none
  | some v => okSome (toIntField v)

/-- Write the four normalized numeric entries back into the dict. -/
def put4 (tx : Tx) (g gp v n : Option PyVal) : Tx :=
  { tx with gas := g, gasPrice := gp, value := v, nonce := n }

/-- Sequence the four field conversions, stopping at the first raised
error, in the loop order gas, gasPrice, value, nonce. -/
def bind4 (tx : Tx) :
    Except String (Option PyVal) → Except String (Option PyVal) →
      Except String (Option PyVal) → Except String (Option PyVal) → Except String Tx
  | .error e, _, _, _ => .error e
  | .ok _, .error e, _, _ => .error e
  | .ok _, .ok _, .error e, _ => .error e
  | .ok _, .ok _, .ok _, .error e => .error e
  | .ok g, .ok gp, .ok v, .ok n => .ok (put4 tx g gp v n)

/-- The loop `for key in ['gas', 'gasPrice', 'value', 'nonce']` of
`classic.py` (lines 165-168 and 219-222), normalizing each present
numeric field to a Python int. -/
def convertNumericFields (tx : Tx) : Except String Tx :=
  bind4 tx (convertField tx.gas) (convertField tx.gasPrice)
    (convertField tx.value) (convertField tx.nonce)

/-- Abstraction of the keccak hash used by EIP-55 checksumming:
`hi body i = true` iff the i-th nibble of keccak-256 of the lowercased
hex body is at least 8 (i.e. the spot where eth_utils uppercases). -/
abbrev HashF : Type := List Char → Nat → Bool

/-- The EIP-55 casing pass of eth_utils: uppercase the i-th character
exactly when the hash marks position i. -/
def eip55Apply (hi : Nat → Bool) : Nat → List Char → List Char
  | _, [] => []
  | i, c :: cs => (if hi i then c.toUpper else c) :: eip55Apply hi (i + 1) cs

/-- `Web3.to_checksum_address` (eth_utils), on the character list of the
address: normalize to the lowercased 40-char body, then apply the EIP-55
casing driven by the keccak of that body.  Validation raises are not
modelled (see module docstring). -/
def web3ToChecksumAddressL (hi : HashF) (addr : List Char) : List Char :=
  let body := (addr.drop 2).map Char.toLower
  '0' :: 'x' :: eip55Apply (hi body) 0 body

/-- `InchSwapper.to_checksum_address` (classic.py lines 70-74) on the
character list of the address: if the string starts with `0x`, lowercase
it and checksum it via web3; otherwise return it unchanged. -/
def to_checksum_addressL (hi : HashF) (address : List Char) : List Char :=
  if startsWith0xL address then web3ToChecksumAddressL hi (address.map Char.toLower)
  else address

/-- `InchSwapper.to_checksum_address` on `String`. -/
def to_checksum_address (hi : HashF) (address : String) : String :=
  String.mk (to_checksum_addressL hi address.toList)

/-- Python truthiness of a string: non-empty. -/
def pyTruthyStr (s : String) : Bool :=
  match s.toList with
  | [] => false
  | _ :: _ => true

/-- Python `x == 0` for a dict value `x`: true exactly for the int `0`
(a string never compares equal to an int in Python). -/
def pyEqZero (v : PyVal) : Bool :=
  match v with
  | .intV n => n == 0
  | _ => false

/-- Absence or Python-equality-to-0 of an optional gas entry. -/
def gasMissingOrZeroO : Option PyVal → Bool
  | Option.none => true
  | some v => pyEqZero v

/-- The condition `'gas' not in transaction or transaction['gas'] == 0`
used at classic.py lines 206 and 234. -/
def gasMissingOrZero (tx : Tx) : Bool :=
  gasMissingOrZeroO tx.gas

/-- One value transformed by `convert_addresses_to_checksum`: strings of
the shape `0x` plus 40 characters are re-checksummed, everything else is
untouched. -/
def checksumVal (hi : HashF) (v : PyVal) : PyVal :=
  match v with
  | .strV s =>
    if startsWith0xL s.toList && s.toList.length == 42 then .strV (to_checksum_address hi s)
    else .strV s
  | v => v

/-- `InchSwapper.convert_addresses_to_checksum` restricted to the flat
transaction dict (the payloads enriched here are flat dicts of scalars). -/
def convert_addresses_to_checksum (hi : HashF) (tx : Tx) : Tx :=
  { toAddr := tx.toAddr.map (checksumVal hi)
    fromAddr := tx.fromAddr.map (checksumVal hi)
    dataF := tx.dataF.map (checksumVal hi)
    value := tx.value.map (checksumVal hi)
    gas := tx.gas.map (checksumVal hi)
    gasPrice := tx.gasPrice.map (checksumVal hi)
    nonce := tx.nonce.map (checksumVal hi)
    chainId := tx.chainId.map (checksumVal hi) }

/-- The explicit re-checksum of the `to` field (`transaction['to'] =
self.to_checksum_address(transaction['to'])`): `to_checksum_address`
returns non-strings unchanged. -/
def checksumField (hi : HashF) (v : PyVal) : PyVal :=
  match v with
  | .strV s => .strV (to_checksum_address hi s)
  | v => v

/-- The hardcoded module-level `AUTO_APPROVE` flag. -/
def AUTO_APPROVE : Bool := true

/-- The `InchSwapper` instance state relevant to the workflow: the chain
id and the checksummed wallet address fixed at construction (the private
key never influences control flow in the model). -/
structure InchSwapper where
  chain_id : Int
  wallet_address : String
  private_key : String
deriving DecidableEq

/-- The fixed chain-id-to-RPC-endpoint table of `InchSwapper.__init__`. -/
def chainRpcUrls : List (Int × String) :=
  [(1, "https://eth-mainnet.g.alchemy.com/v2/NMsHzNgJ7XUYtzNyFpEJ8yT4muQ_lkRF"),
   (10, "https://opt-mainnet.g.alchemy.com/v2/NMsHzNgJ7XUYtzNyFpEJ8yT4muQ_lkRF"),
   (8453, "https://base-mainnet.g.alchemy.com/v2/NMsHzNgJ7XUYtzNyFpEJ8yT4muQ_lkRF"),
   (42161, "https://arb-mainnet.g.alchemy.com/v2/NMsHzNgJ7XUYtzNyFpEJ8yT4muQ_lkRF")]

/-- `InchSwapper.__init__`: checksum the wallet address with
`Web3.to_checksum_address` and reject unsupported chain ids with a
`ValueError` (the `Except.error`). -/
def mkInchSwapper (hi : HashF) (wallet_address private_key : String) (chain_id : Int) :
    Except String InchSwapper :=
  let wallet := String.mk (web3ToChecksumAddressL hi wallet_address.toList)
  match chainRpcUrls.lookup chain_id with
  | Option.none => .error "Unsupported chain ID"
  | some _ => .ok ⟨chain_id, wallet, private_key⟩

/-- The responses of the external world for one swap request, one field
per call site.  `Except.error` is the exception that call raises in
Python; `allowanceResp`'s inner `Option` is `response.json().get("allowance")`,
absent key giving `None`. -/
structure Env where
  allowanceResp : Except String (Option String)
  txCount : Int
  approveApiResp : Except String Tx
  estGasApprove : Except String Int
  approveSignSend : Except String String
  approveReceipt : Except String Unit
  swapApiResp : Except String Tx
  estGasSwap : Except String Int
  swapSignSend : Except String String

/-- `InchSwapper.check_allowance` (classic.py lines 105-122): a network or
HTTP failure of the lookup is caught and turned into the string "0"; a
successful response yields `response.json().get("allowance")`, which is
Python `None` when the key is absent. -/
def check_allowance (resp : Except String (Option String)) : PyVal :=
  match resp with
  | .error _ => .strV "0"
  | .ok (some s) => .strV s
  | .ok Option.none => .noneV

/-- A base-10 parse result as Python `int(x)`: failure is the raised
`ValueError`. -/
def intOrErr : Option Int → Except String Int
  | some n => .ok n
  | Option.none => .error "ValueError: invalid int literal"

/-- Python `int(x)` applied to a scalar held in a dict or returned by
`check_allowance`. -/
def pyIntOfVal : PyVal → Except String Int
  | .intV n => .ok n
  | .strV s => intOrErr (pyIntOfString s)
  | .noneV => .error "TypeError: int of NoneType"

/-- The enrichment steps shared by the two builders (classic.py lines
142-151 and 194-203): recursive address checksumming, the explicit `to`
re-checksum, then forcing `from` to the wallet address, `nonce` to the
node transaction count and `chainId` to the swapper chain id. -/
def enrichBase (hi : HashF) (sw : InchSwapper) (env : Env) (p : Tx) : Tx :=
  let t := convert_addresses_to_checksum hi p
  let t := { t with toAddr := t.toAddr.map (checksumField hi) }
  let t := { t with fromAddr := some (.strV sw.wallet_address) }
  let t := { t with nonce := some (.intV env.txCount) }
  { t with chainId := some (.intV sw.chain_id) }

/-- The gas-estimation try/except: on success install the estimate, on
failure install the fixed 500000 fallback (classic.py lines 155-163 and
207-217). -/
def estGasOr500000 (t : Tx) : Except String Int → Tx
  | .ok g => { t with gas := some (.intV g) }
  | .error _ => { t with gas := some (.intV 500000) }

/-- The conditional gas step of the swap builder (classic.py lines
205-217): only when gas is missing or zero is estimation attempted. -/
def swapGasStep (t : Tx) (est : Except String Int) : Tx :=
  if gasMissingOrZero t then estGasOr500000 t est else t

/-- Rest of the approval builder once the payload request has returned. -/
def approveApiCont (hi : HashF) (sw : InchSwapper) (env : Env) :
    Except String Tx → Except String Tx
  | .error e => .error e
  | .ok p =>
    convertNumericFields
      (estGasOr500000 { enrichBase hi sw env p with value := some (.intV 0) } env.estGasApprove)

/-- `InchSwapper.build_tx_for_approve_trade_with_router` (classic.py lines
124-173): fetch the approval payload, enrich it, force `value` to 0
unconditionally (line 152), estimate gas with the 500000 fallback, then
normalize the numeric fields.  Any exception is re-raised (line 173), so
errors propagate as `Except.error`. -/
def build_tx_for_approve_trade_with_router (hi : HashF) (sw : InchSwapper) (env : Env) :
    Except String Tx :=
  approveApiCont hi sw env env.approveApiResp

/-- Rest of the swap builder once the payload request has returned. -/
def swapApiCont (hi : HashF) (sw : InchSwapper) (env : Env) :
    Except String Tx → Except String Tx
  | .error e => .error e
  | .ok p => convertNumericFields (swapGasStep (enrichBase hi sw env p) env.estGasSwap)

/-- The `except` wrapper of the swap builder: any exception becomes
`None`. -/
def exceptToOption : Except String Tx → Option Tx
  | .ok t => some t
  | .error _ => Option.none

/-- `InchSwapper.build_tx_for_swap` (classic.py lines 175-228): fetch the
swap payload (`response.json()["tx"]`), enrich it, and only when the gas
field is missing or zero estimate gas with the 500000 fallback; `value`
is never defaulted here.  The enclosing `except` returns `None` on any
exception (line 228), embedded as `Option.none`. -/
def build_tx_for_swap (hi : HashF) (sw : InchSwapper) (env : Env) : Option Tx :=
  exceptToOption (swapApiCont hi sw env env.swapApiResp)

/-- The gas double-check of `InchSwapper.sign_and_send_transaction`
(classic.py lines 233-236): substitute the 500000 fallback when the gas
key is missing or compares equal to 0. -/
def ensureGasTx (tx : Tx) : Tx :=
  if gasMissingOrZero tx then { tx with gas := some (.intV 500000) } else tx

/-- `InchSwapper.sign_and_send_transaction` (classic.py lines 230-246):
apply the gas double-check, then sign and broadcast.  The first component
is the transaction actually handed to the signer; the second is the call
result from the environment (`Except.error` = the re-raised exception). -/
def sign_and_send_transaction (res : Except String String) (tx : Tx) :
    Tx × Except String String :=
  (ensureGasTx tx, res)

/-- `SwapResponse` of classic.py (the `result` dict of `perform_swap`). -/
structure SwapResponse where
  success : Bool
  message : String
  tx_hash : Option String
  approval_tx_hash : Option String
deriving DecidableEq, Repr

/-- Observable external actions taken during `perform_swap`, recorded in
program order; the transactions attached to the sign-send events are the
ones handed to the signer. -/
inductive Event where
  | approveBuild : Event
  | approveSignSend : Tx → Event
  | waitReceipt : String → Event
  | swapBuild : Event
  | swapSignSend : Tx → Event
deriving DecidableEq, Repr

deriving instance DecidableEq for Except

/-- The result of one run of `perform_swap`: the returned outcome (or the
escaping exception) together with the recorded external actions. -/
structure SwapRun where
  outcome : Except String SwapResponse
  events : List Event
deriving DecidableEq, Repr

/-- The `if swap_tx_hash:` continuation of the swap phase (classic.py
lines 317-327): record success with both hashes, or report a failed
send; `aph` is the approval hash already recorded in `result`. -/
def swapSendCont (aph : Option String) (evs : List Event) (signed : Tx) :
    Except String String → SwapRun
  | .error e => ⟨.error e, evs ++ [Event.swapBuild, Event.swapSignSend signed]⟩
  | .ok h =>
    if pyTruthyStr h then
      ⟨.ok { success := true, message := "Swap completed successfully",
             tx_hash := some h, approval_tx_hash := aph },
       evs ++ [Event.swapBuild, Event.swapSignSend signed]⟩
    else
      ⟨.ok { success := false, message := "Failed to send swap transaction",
             tx_hash := Option.none, approval_tx_hash := aph },
       evs ++ [Event.swapBuild, Event.swapSignSend signed]⟩

/-- The `if swap_tx:` branch of the swap phase (classic.py lines
310-330). -/
def swapBuildCont (env : Env) (aph : Option String) (evs : List Event) :
    Option Tx → SwapRun
  | Option.none =>
    ⟨.ok { success := false, message := "Failed to build swap transaction",
           tx_hash := Option.none, approval_tx_hash := aph },
     evs ++ [Event.swapBuild]⟩
  | some swap_tx =>
    let sres := sign_and_send_transaction env.swapSignSend swap_tx
    swapSendCont aph evs sres.1 sres.2

/-- The swap phase of `perform_swap` (classic.py lines 296-330): build the
swap transaction, and if that yields a payload, sign-and-send it. -/
def swapPhase (hi : HashF) (sw : InchSwapper) (env : Env) (aph : Option String)
    (evs : List Event) : SwapRun :=
  swapBuildCont env aph evs (build_tx_for_swap hi sw env)

/-- The wait-for-receipt step after a broadcast approval (classic.py
lines 283-285): a raise inside `wait_for_transaction_receipt` escapes,
otherwise the run proceeds to the swap phase with the approval hash
recorded. -/
def approveReceiptCont (hi : HashF) (sw : InchSwapper) (env : Env) (signed : Tx)
    (h : String) : Except String Unit → SwapRun
  | .error e =>
    ⟨.error e, [Event.approveBuild, Event.approveSignSend signed, Event.waitReceipt h]⟩
  | .ok _ =>
    swapPhase hi sw env (some h)
      [Event.approveBuild, Event.approveSignSend signed, Event.waitReceipt h]

/-- The `if approve_tx_hash:` continuation (classic.py lines 280-288). -/
def approveSendCont (hi : HashF) (sw : InchSwapper) (env : Env) (signed : Tx) :
    Except String String → SwapRun
  | .error e => ⟨.error e, [Event.approveBuild, Event.approveSignSend signed]⟩
  | .ok h =>
    if pyTruthyStr h then approveReceiptCont hi sw env signed h env.approveReceipt
    else
      ⟨.ok { success := false, message := "Failed to send approval transaction",
             tx_hash := Option.none, approval_tx_hash := Option.none },
       [Event.approveBuild, Event.approveSignSend signed]⟩

/-- The approval branch of `perform_swap` (classic.py lines 269-291):
build the approval transaction (a raise escapes), then sign-and-send it
and wait for its receipt. -/
def approveBuildCont (hi : HashF) (sw : InchSwapper) (env : Env) :
    Except String Tx → SwapRun
  | .error e => ⟨.error e, [Event.approveBuild]⟩
  | .ok approval_tx =>
    let sres := sign_and_send_transaction env.approveSignSend approval_tx
    approveSendCont hi sw env sres.1 sres.2

/-- The allowance decision of `perform_swap` (classic.py lines 265-294)
once both integers have parsed. -/
def afterAllowance (hi : HashF) (sw : InchSwapper) (env : Env)
    (allowanceInt amountInt : Int) : SwapRun :=
  if allowanceInt < amountInt then
    if AUTO_APPROVE then
      approveBuildCont hi sw env (build_tx_for_approve_trade_with_router hi sw env)
    else
      ⟨.ok { success := false,
             message := "Insufficient allowance and auto-approve is disabled",
             tx_hash := Option.none, approval_tx_hash := Option.none }, []⟩
  else
    swapPhase hi sw env Option.none []

/-- `int(amount)` (classic.py line 265): a parse failure of the request
amount raises before any transaction work. -/
def amountCont (hi : HashF) (sw : InchSwapper) (env : Env) (allowanceInt : Int) :
    Option Int → SwapRun
  | Option.none => ⟨.error "ValueError: invalid amount", []⟩
  | some amountInt => afterAllowance hi sw env allowanceInt amountInt

/-- `int(allowance)` (classic.py line 265): a `TypeError`/`ValueError`
from the allowance value raises out of `perform_swap`. -/
def allowanceCont (hi : HashF) (sw : InchSwapper) (env : Env) (amount : String) :
    Except String Int → SwapRun
  | .error e => ⟨.error e, []⟩
  | .ok allowanceInt => amountCont hi sw env allowanceInt (pyIntOfString amount)

/-- `InchSwapper.perform_swap` (classic.py lines 248-330).  The `src` and
`dst` addresses are checksummed at entry (lines 258-259) but influence only
the request URL, which the environment abstracts; `amount` is the raw
request string.  The dict returned by the approval builder always carries
the enriched fields, so the Python `if approval_tx:` truthiness test is
always true when reached, and `build_tx_for_approve_trade_with_router`
re-raises instead of returning `None`; the `"Failed to build approval
transaction"` branch is unreachable and has no counterpart here. -/
def perform_swap (hi : HashF) (sw : InchSwapper) (env : Env)
    (src dst amount : String) : SwapRun :=
  let _src := to_checksum_address hi src
  let _dst := to_checksum_address hi dst
  allowanceCont hi sw env amount (pyIntOfVal (check_allowance env.allowanceResp))

/-- `Except` result is a success. -/
def isOkB {α β : Type} : Except α β → Bool
  | .ok _ => true
  | .error _ => false

/-- A dict entry that is either absent or holds a Python int. -/
def fieldIsIntOrAbsent (o : Option PyVal) : Prop :=
  match o with
  | Option.none => True
  | some v => ∃ n : Int, v = PyVal.intV n

/-- All four numeric transaction fields are absent or native ints. -/
def numericFieldsInt (tx : Tx) : Prop :=
  fieldIsIntOrAbsent tx.gas ∧ fieldIsIntOrAbsent tx.gasPrice ∧
    fieldIsIntOrAbsent tx.value ∧ fieldIsIntOrAbsent tx.nonce

/-- The sixteen lowercase hexadecimal digit characters (descending). -/
def lowerHexChars : List Char :=
  ['f', 'e', 'd', 'c', 'b', 'a', '9', '8', '7', '6', '5', '4', '3', '2', '1', '0']

/-- Hexadecimal digit characters of either case. -/
def hexChars : List Char :=
  ['F', 'E', 'D', 'C', 'B', 'A'] ++ lowerHexChars

/-- The ten decimal digit characters (descending). -/
def decDigitChars : List Char :=
  ['9', '8', '7', '6', '5', '4', '3', '2', '1', '0']

/-- The invariant claimed of every outcome `perform_swap` returns: success
exactly when a swap hash is present, success only with the success
message, and failures carry no swap hash. -/
def outcomeInv (r : SwapResponse) : Prop :=
  (r.success = true ↔ r.tx_hash ≠ Option.none) ∧
    (r.success = true → r.message = "Swap completed successfully") ∧
    (r.success = false → r.tx_hash = Option.none)

/-- Events that build, send or confirm an approval transaction. -/
def isApprovalEvent : Event → Bool
  | Event.approveBuild => true
  | Event.approveSignSend _ => true
  | Event.waitReceipt _ => true
  | _ => false

/-- If the builder returned a transaction, its gas field is the fixed
500000 fallback. -/
def gasIs500000IfOk : Except String Tx → Prop
  | .ok t => t.gas = some (PyVal.intV 500000)
  | .error _ => True

/-- If the swap builder returned a transaction, its gas field is the
fixed 500000 fallback. -/
def gasIs500000IfSome : Option Tx → Prop
  | some t => t.gas = some (PyVal.intV 500000)
  | Option.none => True

/-- If the run returned an outcome, it carries no approval hash. -/
def approvalAbsentIfOk (run : SwapRun) : Prop :=
  match run.outcome with
  | .ok r => r.approval_tx_hash = Option.none
  | .error _ => True

/-- Concrete hash abstraction used by the witnesses. -/
def hiW : HashF := fun _ _ => false

/-- Concrete swapper used by the witnesses. -/
def swW : InchSwapper := ⟨1, "0xWallet", "pk"⟩

/-- A fully successful environment: zero allowance, working API and node. -/
def envBase : Env :=
  { allowanceResp := .ok (some "0")
    txCount := 7
    approveApiResp := .ok { gasPrice := some (.strV "0x1A") }
    estGasApprove := .ok 21000
    approveSignSend := .ok "0xaaa"
    approveReceipt := .ok ()
    swapApiResp := .ok { value := some (.strV "12") }
    estGasSwap := .ok 30000
    swapSignSend := .ok "0xbbb" }

/-- Environment where the swap sign-and-broadcast call raises. -/
def envSwapSignFails : Env := { envBase with swapSignSend := .error "sign failed" }

/-- Environment where the swap payload request fails (swap build yields
`None`). -/
def envSwapBuildFails : Env := { envBase with swapApiResp := .error "swap api down" }

/-- Environment where the approval payload request fails. -/
def envApproveBuildFails : Env := { envBase with approveApiResp := .error "HTTP 500 from 1inch" }

/-- Environment with a sufficient allowance and a failing swap build. -/
def envAllowanceOkSwapBuildFails : Env :=
  { envBase with allowanceResp := .ok (some "10"), swapApiResp := .error "bad payload" }

/-- Approval payload that already carries a non-zero `value` field. -/
def payloadWithValue : Tx := { value := some (.intV 7) }

/-- Environment whose approval payload carries `value = 7`. -/
def envApproveValueSeven : Env := { envBase with approveApiResp := .ok payloadWithValue }

/-- Environment whose swap payload has no `value` field. -/
def envSwapNoValue : Env := { envBase with swapApiResp := .ok { gasPrice := some (.strV "0x1A") } }

/-- Environment reporting an allowance of 2 to the 80th power, beyond the
64-bit range. -/
def envHugeAllowance : Env :=
  { envBase with allowanceResp := .ok (some "1208925819614629174706176") }

/-- Environment where the allowance lookup raises a network error. -/
def envAllowanceFails : Env := { envBase with allowanceResp := .error "connection timeout" }

/-- Environment where both gas estimation calls raise. -/
def envGasEstimateFails : Env :=
  { envBase with estGasApprove := .error "no gas estimate", estGasSwap := .error "no gas estimate" }

/-- The empty transaction dict. -/
def txEmpty : Tx := {}

/-! ## Helper lemmas -/

lemma convertField_intV_eq (n : Int) :
    convertField (some (PyVal.intV n)) = .ok (some (PyVal.intV n)) := rfl

lemma convertNumericFields_ok_spec {t t' : Tx} (h : convertNumericFields t = .ok t') :
    t'.toAddr = t.toAddr ∧ t'.fromAddr = t.fromAddr ∧ t'.dataF = t.dataF ∧
      t'.chainId = t.chainId ∧
      convertField t.gas = .ok t'.gas ∧ convertField t.gasPrice = .ok t'.gasPrice ∧
      convertField t.value = .ok t'.value ∧ convertField t.nonce = .ok t'.nonce := by
  unfold convertNumericFields at h
  rcases hg : convertField t.gas with e | g <;> rw [hg] at h
  · exact absurd h (by simp [bind4])
  rcases hgp : convertField t.gasPrice with e | gp <;> rw [hgp] at h
  · exact absurd h (by simp [bind4])
  rcases hv : convertField t.value with e | v <;> rw [hv] at h
  · exact absurd h (by simp [bind4])
  rcases hn : convertField t.nonce with e | n <;> rw [hn] at h
  · exact absurd h (by simp [bind4])
  simp only [bind4] at h
  injection h with h
  rw [← h]
  simp [put4, hg, hgp, hv, hn]

lemma intResult_ok_int {o : Option Int} {msg : String} {w : PyVal}
    (h : intResult o msg = .ok w) : ∃ n : Int, w = PyVal.intV n := by
  rcases o with _ | n
  · exact absurd h (by simp [intResult])
  · simp only [intResult] at h
    injection h with h
    exact ⟨n, h.symm⟩

lemma toIntField_ok_int {v w : PyVal} (h : toIntField v = .ok w) :
    ∃ n : Int, w = PyVal.intV n := by
  rcases v with n | s | _
  · simp only [toIntField] at h
    injection h with h
    exact ⟨n, h.symm⟩
  · simp only [toIntField] at h
    by_cases h0 : startsWith0xL s.toList
    · rw [if_pos h0] at h
      exact intResult_ok_int h
    · rw [if_neg h0] at h
      exact intResult_ok_int h
  · exact absurd h (by simp [toIntField])

lemma convertField_ok_int {o : Option PyVal} {o' : Option PyVal}
    (h : convertField o = .ok o') : fieldIsIntOrAbsent o' := by
  rcases o with _ | v
  · simp only [convertField] at h
    injection h with h
    rw [← h]
    trivial
  · simp only [convertField] at h
    rcases ht : toIntField v with e | w <;> rw [ht] at h
    · exact absurd h (by simp [okSome])
    · simp only [okSome] at h
      injection h with h
      rw [← h]
      exact toIntField_ok_int ht

lemma convertNumericFields_ok_int {t t' : Tx} (h : convertNumericFields t = .ok t') :
    numericFieldsInt t' := by
  obtain ⟨_, _, _, _, hg, hgp, hv, hn⟩ := convertNumericFields_ok_spec h
  exact ⟨convertField_ok_int hg, convertField_ok_int hgp, convertField_ok_int hv,
    convertField_ok_int hn⟩

lemma swapSendCont_shape (aph : Option String) (evs : List Event) (signed : Tx)
    (res : Except String String) :
    (swapSendCont aph evs signed res).events =
        evs ++ [Event.swapBuild, Event.swapSignSend signed] ∧
      ∀ r, (swapSendCont aph evs signed res).outcome = .ok r →
        r.approval_tx_hash = aph ∧ outcomeInv r := by
  rcases res with e | h
  · exact ⟨rfl, fun r hr => absurd hr (by simp [swapSendCont])⟩
  · simp only [swapSendCont]
    by_cases ht : pyTruthyStr h
    · rw [if_pos ht]
      refine ⟨rfl, fun r hr => ?_⟩
      injection hr with hr
      rw [← hr]
      exact ⟨rfl, by simp [outcomeInv]⟩
    · rw [if_neg ht]
      refine ⟨rfl, fun r hr => ?_⟩
      injection hr with hr
      rw [← hr]
      exact ⟨rfl, by simp [outcomeInv]⟩

lemma swapPhase_shape (hi : HashF) (sw : InchSwapper) (env : Env) (aph : Option String)
    (evs : List Event) :
    ((swapPhase hi sw env aph evs).events = evs ++ [Event.swapBuild] ∨
        ∃ tx, (swapPhase hi sw env aph evs).events =
          evs ++ [Event.swapBuild, Event.swapSignSend tx]) ∧
      ∀ r, (swapPhase hi sw env aph evs).outcome = .ok r →
        r.approval_tx_hash = aph ∧ outcomeInv r := by
  unfold swapPhase
  rcases hb : build_tx_for_swap hi sw env with _ | tx
  · simp only [swapBuildCont]
    refine ⟨Or.inl (by simp), fun r hr => ?_⟩
    injection hr with hr
    rw [← hr]
    exact ⟨rfl, by simp [outcomeInv]⟩
  · simp only [swapBuildCont]
    obtain ⟨he, ho⟩ := swapSendCont_shape aph evs
      (sign_and_send_transaction env.swapSignSend tx).1
      (sign_and_send_transaction env.swapSignSend tx).2
    exact ⟨Or.inr ⟨_, he⟩, ho⟩

lemma swapPhase_buildFail {hi : HashF} {sw : InchSwapper} {env : Env} (aph : Option String)
    (evs : List Event) (hb : build_tx_for_swap hi sw env = Option.none) :
    swapPhase hi sw env aph evs =
      ⟨.ok ⟨false, "Failed to build swap transaction", Option.none, aph⟩,
       evs ++ [Event.swapBuild]⟩ := by
  unfold swapPhase
  rw [hb]
  rfl

lemma swapPhase_signFail {hi : HashF} {sw : InchSwapper} {env : Env} {stx : Tx} {e : String}
    (aph : Option String) (evs : List Event)
    (hb : build_tx_for_swap hi sw env = some stx) (hs : env.swapSignSend = .error e) :
    swapPhase hi sw env aph evs =
      ⟨.error e, evs ++ [Event.swapBuild, Event.swapSignSend (ensureGasTx stx)]⟩ := by
  unfold swapPhase
  rw [hb]
  simp only [swapBuildCont, sign_and_send_transaction]
  rw [hs]
  rfl

lemma perform_swap_eq_cont (hi : HashF) (sw : InchSwapper) (env : Env)
    (src dst amount : String) :
    perform_swap hi sw env src dst amount =
      allowanceCont hi sw env amount (pyIntOfVal (check_allowance env.allowanceResp)) := rfl

lemma perform_swap_parsed {hi : HashF} {sw : InchSwapper} {env : Env}
    {amount : String} {A M : Int} (src dst : String)
    (hA : pyIntOfVal (check_allowance env.allowanceResp) = .ok A)
    (hM : pyIntOfString amount = some M) :
    perform_swap hi sw env src dst amount = afterAllowance hi sw env A M := by
  rw [perform_swap_eq_cont, hA]
  simp only [allowanceCont]
  rw [hM]
  rfl

lemma afterAllowance_ge {hi : HashF} {sw : InchSwapper} {env : Env} {A M : Int}
    (h : ¬ A < M) :
    afterAllowance hi sw env A M = swapPhase hi sw env Option.none [] := by
  unfold afterAllowance
  rw [if_neg h]

lemma afterAllowance_lt {hi : HashF} {sw : InchSwapper} {env : Env} {A M : Int}
    (h : A < M) :
    afterAllowance hi sw env A M =
      approveBuildCont hi sw env (build_tx_for_approve_trade_with_router hi sw env) := by
  unfold afterAllowance
  rw [if_pos h]
  rfl

lemma approve_chain {hi : HashF} {sw : InchSwapper} {env : Env} {atx : Tx} {h : String}
    (hb : build_tx_for_approve_trade_with_router hi sw env = .ok atx)
    (hs : env.approveSignSend = .ok h) (ht : pyTruthyStr h = true)
    (hr : env.approveReceipt = .ok ()) :
    approveBuildCont hi sw env (build_tx_for_approve_trade_with_router hi sw env) =
      swapPhase hi sw env (some h)
        [Event.approveBuild, Event.approveSignSend (ensureGasTx atx), Event.waitReceipt h] := by
  rw [hb]
  simp only [approveBuildCont, sign_and_send_transaction]
  rw [hs]
  simp only [approveSendCont]
  rw [if_pos ht, hr]
  rfl

/-! ## Claim theorems -/

/-- C9: every outcome actually returned by `perform_swap` satisfies the
invariant: `success` is true iff `tx_hash` is present, success only comes
with the message "Swap completed successfully", and every failure outcome
has `tx_hash = None`. -/
theorem spec_c9_outcome_invariant (hi : HashF) (sw : InchSwapper) (env : Env)
    (src dst amount : String) (r : SwapResponse)
    (h : (perform_swap hi sw env src dst amount).outcome = .ok r) :
    outcomeInv r := by
  rw [perform_swap_eq_cont] at h
  rcases hA : pyIntOfVal (check_allowance env.allowanceResp) with e | A <;> rw [hA] at h
  · exact absurd h (by simp [allowanceCont])
  simp only [allowanceCont] at h
  rcases hM : pyIntOfString amount with _ | M <;> rw [hM] at h
  · exact absurd h (by simp [amountCont])
  simp only [amountCont] at h
  unfold afterAllowance at h
  by_cases hlt : A < M
  · rw [if_pos hlt] at h
    simp only [AUTO_APPROVE, if_true] at h
    rcases hb : build_tx_for_approve_trade_with_router hi sw env with e | atx <;> rw [hb] at h
    · exact absurd h (by simp [approveBuildCont])
    simp only [approveBuildCont, sign_and_send_transaction] at h
    rcases hs : env.approveSignSend with e | hh <;> rw [hs] at h
    · exact absurd h (by simp [approveSendCont])
    simp only [approveSendCont] at h
    by_cases htr : pyTruthyStr hh
    · rw [if_pos htr] at h
      rcases hrc : env.approveReceipt with e | u <;> rw [hrc] at h
      · exact absurd h (by simp [approveReceiptCont])
      simp only [approveReceiptCont] at h
      exact ((swapPhase_shape hi sw env (some hh) _).2 r h).2
    · rw [if_neg htr] at h
      injection h with h
      rw [← h]
      simp [outcomeInv]
  · rw [if_neg hlt] at h
    exact ((swapPhase_shape hi sw env Option.none []).2 r h).2

/-- C9 witness: the fully successful environment returns the success
outcome, which satisfies the invariant. -/
theorem spec_c9_outcome_invariant_witness :
    (perform_swap hiW swW envBase "0xsrc" "0xdst" "5").outcome =
        .ok ⟨true, "Swap completed successfully", some "0xbbb", some "0xaaa"⟩ ∧
      outcomeInv ⟨true, "Swap completed successfully", some "0xbbb", some "0xaaa"⟩ :=
  ⟨by decide, spec_c9_outcome_invariant hiW swW envBase "0xsrc" "0xdst" "5" _ (by decide)⟩

/-- C4: the allowance decision is an arbitrary-precision integer
comparison (`Int` in this embedding); whenever the parsed allowance is at
least the parsed amount, the run performs no approval action at all (no
build, no sign-and-send, no receipt wait) and any returned outcome has no
approval transaction hash. -/
theorem spec_c4_no_approval_when_sufficient (hi : HashF) (sw : InchSwapper) (env : Env)
    (src dst amount : String) (A M : Int)
    (hA : pyIntOfVal (check_allowance env.allowanceResp) = .ok A)
    (hM : pyIntOfString amount = some M) (hge : M ≤ A) :
    (perform_swap hi sw env src dst amount).events.all
        (fun ev => !isApprovalEvent ev) = true ∧
      approvalAbsentIfOk (perform_swap hi sw env src dst amount) := by
  rw [perform_swap_parsed src dst hA hM, afterAllowance_ge (not_lt.mpr hge)]
  obtain ⟨hsh, ho⟩ := swapPhase_shape hi sw env Option.none []
  constructor
  · rcases hsh with he | ⟨tx, he⟩ <;> rw [he] <;> simp [isApprovalEvent]
  · unfold approvalAbsentIfOk
    rcases hoc : (swapPhase hi sw env Option.none []).outcome with e | r
    · trivial
    · exact (ho r hoc).1

/-- C4 witness: with an allowance of 2^80 (beyond 64-bit range) against an
amount of 2^80 - 1, no approval action happens and the outcome carries no
approval hash. -/
theorem spec_c4_no_approval_when_sufficient_witness :
    (pyIntOfVal (check_allowance envHugeAllowance.allowanceResp) =
        .ok 1208925819614629174706176 ∧
      pyIntOfString "1208925819614629174706175" = some 1208925819614629174706175 ∧
      (1208925819614629174706175 : Int) ≤ 1208925819614629174706176) ∧
    ((perform_swap hiW swW envHugeAllowance "0xsrc" "0xdst"
          "1208925819614629174706175").events.all (fun ev => !isApprovalEvent ev) = true ∧
      approvalAbsentIfOk (perform_swap hiW swW envHugeAllowance "0xsrc" "0xdst"
          "1208925819614629174706175")) :=
  ⟨⟨by decide, by decide, by decide⟩,
    spec_c4_no_approval_when_sufficient hiW swW envHugeAllowance "0xsrc" "0xdst"
      "1208925819614629174706175" 1208925819614629174706176 1208925819614629174706175
      (by decide) (by decide) (by decide)⟩

/-- C5: a network/HTTP failure of the allowance lookup makes
`check_allowance` return the string "0", and (auto-approval being
hardcoded on) a run with a failed lookup and a positive requested amount
does attempt an approval build rather than skipping it. -/
theorem spec_c5_allowance_error_zero (msg : String) (hi : HashF) (sw : InchSwapper)
    (env : Env) (src dst amount : String) (M : Int)
    (hresp : env.allowanceResp = .error msg)
    (hM : pyIntOfString amount = some M) (hpos : 0 < M) :
    check_allowance (.error msg) = PyVal.strV "0" ∧
      Event.approveBuild ∈ (perform_swap hi sw env src dst amount).events := by
  refine ⟨rfl, ?_⟩
  have hA : pyIntOfVal (check_allowance env.allowanceResp) = .ok 0 := by
    rw [hresp]
    rfl
  rw [perform_swap_parsed src dst hA hM, afterAllowance_lt hpos]
  rcases hb : build_tx_for_approve_trade_with_router hi sw env with e | atx
  · simp [approveBuildCont]
  · simp only [approveBuildCont, sign_and_send_transaction]
    rcases hs : env.approveSignSend with e | hh
    · simp [approveSendCont]
    · simp only [approveSendCont]
      by_cases htr : pyTruthyStr hh
      · rw [if_pos htr]
        rcases hrc : env.approveReceipt with e | u
        · simp [approveReceiptCont]
        · simp only [approveReceiptCont]
          obtain ⟨hsh, _⟩ := swapPhase_shape hi sw env (some hh)
            [Event.approveBuild, Event.approveSignSend
              (ensureGasTx atx), Event.waitReceipt hh]
          rcases hsh with he | ⟨tx, he⟩ <;> rw [he] <;> simp
      · rw [if_neg htr]
        simp

/-- C5 witness: a concrete timeout of the allowance lookup with amount 5
forces the approval build. -/
theorem spec_c5_allowance_error_zero_witness :
    (envAllowanceFails.allowanceResp = .error "connection timeout" ∧
      pyIntOfString "5" = some 5 ∧ (0 : Int) < 5) ∧
    (check_allowance (.error "connection timeout") = PyVal.strV "0" ∧
      Event.approveBuild ∈
        (perform_swap hiW swW envAllowanceFails "0xsrc" "0xdst" "5").events) :=
  ⟨⟨by decide, by decide, by decide⟩,
    spec_c5_allowance_error_zero "connection timeout" hiW swW envAllowanceFails
      "0xsrc" "0xdst" "5" 5 (by decide) (by decide) (by decide)⟩

/-- C10: whatever transaction reaches `sign_and_send_transaction` with an
integer or missing gas entry is signed with a present, non-zero integer
gas: the 500000 fallback replaces a missing or zero entry, and a non-zero
entry is kept. -/
theorem spec_c10_signed_gas_nonzero (res : Except String String) (tx : Tx)
    (h : tx.gas = Option.none ∨ ∃ n : Int, tx.gas = some (PyVal.intV n)) :
    ∃ m : Int, ((sign_and_send_transaction res tx).1).gas = some (PyVal.intV m) ∧ m ≠ 0 := by
  simp only [sign_and_send_transaction, ensureGasTx]
  rcases h with hnone | ⟨n, hn⟩
  · have hg : gasMissingOrZero tx = true := by
      unfold gasMissingOrZero
      rw [hnone]
      rfl
    rw [if_pos hg]
    exact ⟨500000, rfl, by norm_num⟩
  · by_cases h0 : n = 0
    · have hg : gasMissingOrZero tx = true := by
        unfold gasMissingOrZero
        rw [hn]
        simp [gasMissingOrZeroO, pyEqZero, h0]
      rw [if_pos hg]
      exact ⟨500000, rfl, by norm_num⟩
    · have hg : ¬ gasMissingOrZero tx = true := by
        unfold gasMissingOrZero
        rw [hn]
        simp [gasMissingOrZeroO, pyEqZero, h0]
      rw [if_neg hg]
      exact ⟨n, hn, h0⟩

/-- C10 witness: the empty transaction (gas absent) is signed with the
500000 fallback. -/
theorem spec_c10_signed_gas_nonzero_witness :
    (txEmpty.gas = Option.none ∨ ∃ n : Int, txEmpty.gas = some (PyVal.intV n)) ∧
      ∃ m : Int, ((sign_and_send_transaction (.ok "0xh") txEmpty).1).gas =
        some (PyVal.intV m) ∧ m ≠ 0 :=
  ⟨Or.inl rfl, spec_c10_signed_gas_nonzero (.ok "0xh") txEmpty (Or.inl rfl)⟩

/-- C1 counterexample: with the approval broadcast and confirmed
(`waitReceipt "0xaaa"` occurs) but the swap sign/broadcast call raising,
`perform_swap` does not return a failure outcome at all — the exception
escapes (surfacing as the generic service error), so no outcome carrying
the approval hash is produced. -/
theorem spec_c1_counterexample :
    Event.waitReceipt "0xaaa" ∈
        (perform_swap hiW swW envSwapSignFails "0xsrc" "0xdst" "5").events ∧
      (perform_swap hiW swW envSwapSignFails "0xsrc" "0xdst" "5").outcome =
        Except.error "sign failed" := by decide

/-- C1 (amended): after a broadcast and confirmed approval, a swap BUILD
failure does return the failure outcome carrying the approval transaction
hash next to the failure message; a swap sign/broadcast failure instead
propagates the exception out of `perform_swap` (no outcome is returned),
as the counterexample shows. -/
theorem spec_c1_approval_hash_on_swap_build_failure (hi : HashF) (sw : InchSwapper)
    (env : Env) (src dst amount : String) (A M : Int) (atx : Tx) (h : String)
    (hA : pyIntOfVal (check_allowance env.allowanceResp) = .ok A)
    (hM : pyIntOfString amount = some M) (hlt : A < M)
    (hb : build_tx_for_approve_trade_with_router hi sw env = .ok atx)
    (hs : env.approveSignSend = .ok h) (ht : pyTruthyStr h = true)
    (hrc : env.approveReceipt = .ok ())
    (hsb : build_tx_for_swap hi sw env = Option.none) :
    perform_swap hi sw env src dst amount =
      ⟨.ok ⟨false, "Failed to build swap transaction", Option.none, some h⟩,
       [Event.approveBuild, Event.approveSignSend (ensureGasTx atx),
        Event.waitReceipt h, Event.swapBuild]⟩ := by
  rw [perform_swap_parsed src dst hA hM, afterAllowance_lt hlt,
    approve_chain hb hs ht hrc, swapPhase_buildFail _ _ hsb]
  rfl

/-- C1 witness: concrete environment with a working approval and a failing
swap-payload request. -/
theorem spec_c1_approval_hash_on_swap_build_failure_witness :
    (pyIntOfVal (check_allowance envSwapBuildFails.allowanceResp) = .ok 0 ∧
      pyIntOfString "5" = some 5 ∧ (0 : Int) < 5 ∧
      envSwapBuildFails.approveSignSend = .ok "0xaaa" ∧
      pyTruthyStr "0xaaa" = true ∧
      envSwapBuildFails.approveReceipt = .ok () ∧
      build_tx_for_swap hiW swW envSwapBuildFails = Option.none) ∧
    perform_swap hiW swW envSwapBuildFails "0xsrc" "0xdst" "5" =
      ⟨.ok ⟨false, "Failed to build swap transaction", Option.none, some "0xaaa"⟩,
       [Event.approveBuild,
        Event.approveSignSend
          ⟨Option.none, some (PyVal.strV "0xWallet"), Option.none, some (PyVal.intV 0),
           some (PyVal.intV 21000), some (PyVal.intV 26), some (PyVal.intV 7),
           some (PyVal.intV 1)⟩,
        Event.waitReceipt "0xaaa", Event.swapBuild]⟩ :=
  ⟨⟨by decide, by decide, by decide, by decide, by decide, by decide, by decide⟩,
    spec_c1_approval_hash_on_swap_build_failure hiW swW envSwapBuildFails "0xsrc" "0xdst" "5"
      0 5
      ⟨Option.none, some (PyVal.strV "0xWallet"), Option.none, some (PyVal.intV 0),
       some (PyVal.intV 21000), some (PyVal.intV 26), some (PyVal.intV 7),
       some (PyVal.intV 1)⟩
      "0xaaa" (by decide) (by decide) (by decide) (by decide) (by decide) (by decide)
      (by decide) (by decide)⟩

/-- C2 counterexample: a build failure at the APPROVAL step does not
produce a failed `SwapOutcome`: the re-raised exception escapes
`perform_swap` and surfaces as the generic service error (HTTP 500 at the
endpoint), contradicting the claim that every build failure is surfaced
as a failed outcome. -/
theorem spec_c2_counterexample :
    envApproveBuildFails.approveApiResp = Except.error "HTTP 500 from 1inch" ∧
      perform_swap hiW swW envApproveBuildFails "0xsrc" "0xdst" "5" =
        ⟨Except.error "HTTP 500 from 1inch", [Event.approveBuild]⟩ := by decide

/-- C2 (amended): a SWAP build failure is surfaced as a failed outcome
with the message "Failed to build swap transaction" and nothing is signed
or broadcast for that step (the run's only swap event is the build);
an APPROVAL build failure instead escapes as an exception (generic
service error), also with nothing signed for that step. -/
theorem spec_c2_build_failure_outcomes (hi : HashF) (sw : InchSwapper)
    (env1 env2 : Env) (src dst amount1 amount2 : String)
    (A1 M1 A2 M2 : Int) (e : String)
    (h1A : pyIntOfVal (check_allowance env1.allowanceResp) = .ok A1)
    (h1M : pyIntOfString amount1 = some M1) (h1ge : M1 ≤ A1)
    (h1b : build_tx_for_swap hi sw env1 = Option.none)
    (h2A : pyIntOfVal (check_allowance env2.allowanceResp) = .ok A2)
    (h2M : pyIntOfString amount2 = some M2) (h2lt : A2 < M2)
    (h2e : env2.approveApiResp = .error e) :
    perform_swap hi sw env1 src dst amount1 =
        ⟨.ok ⟨false, "Failed to build swap transaction", Option.none, Option.none⟩,
         [Event.swapBuild]⟩ ∧
      perform_swap hi sw env2 src dst amount2 = ⟨.error e, [Event.approveBuild]⟩ := by
  constructor
  · rw [perform_swap_parsed src dst h1A h1M, afterAllowance_ge (not_lt.mpr h1ge),
      swapPhase_buildFail _ _ h1b]
    simp
  · rw [perform_swap_parsed src dst h2A h2M, afterAllowance_lt h2lt]
    have hb : build_tx_for_approve_trade_with_router hi sw env2 = .error e := by
      unfold build_tx_for_approve_trade_with_router
      rw [h2e]
      rfl
    rw [hb]
    rfl

/-- C2 witness: a sufficient allowance with a failing swap-payload request
for the first half, a failing approval-payload request for the second. -/
theorem spec_c2_build_failure_outcomes_witness :
    (pyIntOfVal (check_allowance envAllowanceOkSwapBuildFails.allowanceResp) = .ok 10 ∧
      pyIntOfString "5" = some 5 ∧ (5 : Int) ≤ 10 ∧
      build_tx_for_swap hiW swW envAllowanceOkSwapBuildFails = Option.none ∧
      pyIntOfVal (check_allowance envApproveBuildFails.allowanceResp) = .ok 0 ∧
      (0 : Int) < 5 ∧
      envApproveBuildFails.approveApiResp = .error "HTTP 500 from 1inch") ∧
    (perform_swap hiW swW envAllowanceOkSwapBuildFails "0xs" "0xd" "5" =
        ⟨.ok ⟨false, "Failed to build swap transaction", Option.none, Option.none⟩,
         [Event.swapBuild]⟩ ∧
      perform_swap hiW swW envApproveBuildFails "0xs" "0xd" "5" =
        ⟨.error "HTTP 500 from 1inch", [Event.approveBuild]⟩) :=
  ⟨⟨by decide, by decide, by decide, by decide, by decide, by decide, by decide⟩,
    spec_c2_build_failure_outcomes hiW swW envAllowanceOkSwapBuildFails envApproveBuildFails
      "0xs" "0xd" "5" "5" 10 5 0 5 "HTTP 500 from 1inch" (by decide) (by decide)
      (by decide) (by decide) (by decide) (by decide) (by decide) (by decide)⟩

lemma estGasOr500000_fields (t : Tx) (est : Except String Int) :
    (estGasOr500000 t est).fromAddr = t.fromAddr ∧ (estGasOr500000 t est).nonce = t.nonce ∧
      (estGasOr500000 t est).chainId = t.chainId ∧ (estGasOr500000 t est).value = t.value ∧
      (estGasOr500000 t est).gasPrice = t.gasPrice := by
  rcases est with e | g
  · exact ⟨rfl, rfl, rfl, rfl, rfl⟩
  · exact ⟨rfl, rfl, rfl, rfl, rfl⟩

lemma swapGasStep_fields (t : Tx) (est : Except String Int) :
    (swapGasStep t est).fromAddr = t.fromAddr ∧ (swapGasStep t est).nonce = t.nonce ∧
      (swapGasStep t est).chainId = t.chainId ∧ (swapGasStep t est).value = t.value := by
  unfold swapGasStep
  by_cases hg : gasMissingOrZero t = true
  · rw [if_pos hg]
    obtain ⟨h1, h2, h3, h4, _⟩ := estGasOr500000_fields t est
    exact ⟨h1, h2, h3, h4⟩
  · rw [if_neg hg]
    exact ⟨rfl, rfl, rfl, rfl⟩

/-- C3 counterexample: an approval payload that already carries
`value = 7` still comes out of the approval builder with `value = 0`: the
builder overwrites an existing value field instead of keeping it, so
"set value to zero unless already present" fails on the approval path. -/
theorem spec_c3_counterexample :
    payloadWithValue.value = some (PyVal.intV 7) ∧
      envApproveValueSeven.approveApiResp = .ok payloadWithValue ∧
      Except.map (fun t => t.value)
          (build_tx_for_approve_trade_with_router hiW swW envApproveValueSeven) =
        .ok (some (PyVal.intV 0)) := by decide

/-- C3 (amended): both builders force `from` to the swapper's wallet
address (itself the checksummed form of the constructor input), `nonce`
to the node's transaction count and `chainId` to the requested chain id;
the approval builder sets `value` to 0 unconditionally, overwriting any
payload value, while the swap builder never inserts a value field (an
absent value stays absent). -/
theorem spec_c3_enrichment (hi : HashF) (sw : InchSwapper) (env : Env) (p atx stx : Tx)
    (w pk : String) (cid : Int) (sw2 : InchSwapper)
    (hb1 : build_tx_for_approve_trade_with_router hi sw env = .ok atx)
    (hresp2 : env.swapApiResp = .ok p) (hpv : p.value = Option.none)
    (hb2 : build_tx_for_swap hi sw env = some stx)
    (hmk : mkInchSwapper hi w pk cid = .ok sw2) :
    (atx.fromAddr = some (PyVal.strV sw.wallet_address) ∧
        atx.nonce = some (PyVal.intV env.txCount) ∧
        atx.chainId = some (PyVal.intV sw.chain_id) ∧
        atx.value = some (PyVal.intV 0)) ∧
      (stx.fromAddr = some (PyVal.strV sw.wallet_address) ∧
        stx.nonce = some (PyVal.intV env.txCount) ∧
        stx.chainId = some (PyVal.intV sw.chain_id) ∧
        stx.value = Option.none) ∧
      sw2.wallet_address = String.mk (web3ToChecksumAddressL hi w.toList) := by
  refine ⟨?_, ?_, ?_⟩
  · unfold build_tx_for_approve_trade_with_router at hb1
    rcases hresp : env.approveApiResp with e | pp <;> rw [hresp] at hb1
    · exact absurd hb1 (by simp [approveApiCont])
    simp only [approveApiCont] at hb1
    obtain ⟨_, hfrom, _, hchain, _, _, hval, hnonce⟩ := convertNumericFields_ok_spec hb1
    obtain ⟨e1, e2, e3, e4, _⟩ := estGasOr500000_fields
      { enrichBase hi sw env pp with value := some (PyVal.intV 0) } env.estGasApprove
    refine ⟨?_, ?_, ?_, ?_⟩
    · rw [hfrom, e1]
      rfl
    · rw [e2] at hnonce
      have : convertField (some (PyVal.intV env.txCount)) = .ok atx.nonce := hnonce
      rw [convertField_intV_eq] at this
      injection this with this
      exact this.symm
    · rw [hchain, e3]
      rfl
    · rw [e4] at hval
      have : convertField (some (PyVal.intV 0)) = .ok atx.value := hval
      rw [convertField_intV_eq] at this
      injection this with this
      exact this.symm
  · unfold build_tx_for_swap at hb2
    rw [hresp2] at hb2
    simp only [swapApiCont] at hb2
    rcases hcv : convertNumericFields (swapGasStep (enrichBase hi sw env p) env.estGasSwap)
      with e | t2 <;> rw [hcv] at hb2
    · exact absurd hb2 (by simp [exceptToOption])
    simp only [exceptToOption] at hb2
    injection hb2 with hb2
    subst hb2
    obtain ⟨_, hfrom, _, hchain, _, _, hval, hnonce⟩ := convertNumericFields_ok_spec hcv
    obtain ⟨s1, s2, s3, s4⟩ := swapGasStep_fields (enrichBase hi sw env p) env.estGasSwap
    refine ⟨?_, ?_, ?_, ?_⟩
    · rw [hfrom, s1]
      rfl
    · rw [s2] at hnonce
      have : convertField (some (PyVal.intV env.txCount)) = .ok t2.nonce := hnonce
      rw [convertField_intV_eq] at this
      injection this with this
      exact this.symm
    · rw [hchain, s3]
      rfl
    · rw [s4] at hval
      have hev : (enrichBase hi sw env p).value = Option.none := by
        show p.value.map (checksumVal hi) = Option.none
        rw [hpv]
        rfl
      rw [hev] at hval
      have : convertField Option.none = .ok t2.value := hval
      simp only [convertField] at this
      injection this with this
      exact this.symm
  · unfold mkInchSwapper at hmk
    split at hmk
    · exact absurd hmk (by simp)
    · injection hmk with hmk
      rw [← hmk]

/-- C3 witness: the successful environment whose swap payload has no
value field, plus a concrete swapper construction. -/
theorem spec_c3_enrichment_witness :
    (build_tx_for_approve_trade_with_router hiW swW envSwapNoValue =
        .ok ⟨Option.none, some (PyVal.strV "0xWallet"), Option.none, some (PyVal.intV 0),
          some (PyVal.intV 21000), some (PyVal.intV 26), some (PyVal.intV 7),
          some (PyVal.intV 1)⟩ ∧
      envSwapNoValue.swapApiResp = .ok { gasPrice := some (PyVal.strV "0x1A") } ∧
      build_tx_for_swap hiW swW envSwapNoValue =
        some ⟨Option.none, some (PyVal.strV "0xWallet"), Option.none, Option.none,
          some (PyVal.intV 30000), some (PyVal.intV 26), some (PyVal.intV 7),
          some (PyVal.intV 1)⟩ ∧
      mkInchSwapper hiW "0xAbC" "pk" 1 = .ok ⟨1, "0xabc", "pk"⟩) ∧
    ((⟨1, "0xabc", "pk"⟩ : InchSwapper).wallet_address =
      String.mk (web3ToChecksumAddressL hiW "0xAbC".toList)) :=
  ⟨⟨by decide, by decide, by decide, by decide⟩,
    (spec_c3_enrichment hiW swW envSwapNoValue { gasPrice := some (PyVal.strV "0x1A") }
      ⟨Option.none, some (PyVal.strV "0xWallet"), Option.none, some (PyVal.intV 0),
        some (PyVal.intV 21000), some (PyVal.intV 26), some (PyVal.intV 7),
        some (PyVal.intV 1)⟩
      ⟨Option.none, some (PyVal.strV "0xWallet"), Option.none, Option.none,
        some (PyVal.intV 30000), some (PyVal.intV 26), some (PyVal.intV 7),
        some (PyVal.intV 1)⟩
      "0xAbC" "pk" 1 ⟨1, "0xabc", "pk"⟩
      (by decide) (by decide) (by decide) (by decide) (by decide)).2.2⟩

lemma convertNumericFields_isOkB_gas (t : Tx) (a b : Int) :
    isOkB (convertNumericFields { t with gas := some (PyVal.intV a) }) =
      isOkB (convertNumericFields { t with gas := some (PyVal.intV b) }) := by
  show isOkB (bind4 { t with gas := some (PyVal.intV a) } (.ok (some (PyVal.intV a)))
      (convertField t.gasPrice) (convertField t.value) (convertField t.nonce)) =
    isOkB (bind4 { t with gas := some (PyVal.intV b) } (.ok (some (PyVal.intV b)))
      (convertField t.gasPrice) (convertField t.value) (convertField t.nonce))
  rcases convertField t.gasPrice with e | gp
  · rfl
  rcases convertField t.value with e | v
  · rfl
  rcases convertField t.nonce with e | n
  · rfl
  rfl

lemma exceptToOption_isSome (r : Except String Tx) :
    (exceptToOption r).isSome = isOkB r := by
  rcases r with e | t <;> rfl

lemma approveApiCont_ok (hi : HashF) (sw : InchSwapper) (env : Env) (pp : Tx) :
    approveApiCont hi sw env (.ok pp) =
      convertNumericFields (estGasOr500000
        { enrichBase hi sw env pp with value := some (PyVal.intV 0) }
        env.estGasApprove) := rfl

lemma swapApiCont_ok (hi : HashF) (sw : InchSwapper) (env : Env) (pp : Tx) :
    swapApiCont hi sw env (.ok pp) =
      convertNumericFields (swapGasStep (enrichBase hi sw env pp) env.estGasSwap) := rfl

/-- C6: whenever the gas-estimation call of a build step fails, the
transaction that step produces (when it produces one) carries the fixed
500000 fallback gas, and the estimation failure never changes whether the
build succeeds (the workflow proceeds exactly when it would have with a
successful estimate). -/
theorem spec_c6_gas_fallback (hi : HashF) (sw : InchSwapper) (envA envS : Env)
    (e1 e2 : String) (g : Int) (p : Tx)
    (h1 : envA.estGasApprove = .error e1)
    (h2 : envS.estGasSwap = .error e2)
    (h3 : envS.swapApiResp = .ok p)
    (h4 : gasMissingOrZero (enrichBase hi sw envS p) = true) :
    gasIs500000IfOk (build_tx_for_approve_trade_with_router hi sw envA) ∧
      isOkB (build_tx_for_approve_trade_with_router hi sw envA) =
        isOkB (build_tx_for_approve_trade_with_router hi sw
          { envA with estGasApprove := .ok g }) ∧
      gasIs500000IfSome (build_tx_for_swap hi sw envS) ∧
      (build_tx_for_swap hi sw envS).isSome =
        (build_tx_for_swap hi sw { envS with estGasSwap := .ok g }).isSome := by
  refine ⟨?_, ?_, ?_, ?_⟩
  · unfold build_tx_for_approve_trade_with_router
    rcases hresp : envA.approveApiResp with er | pp
    · simp [approveApiCont, gasIs500000IfOk]
    · rw [approveApiCont_ok, h1]
      show gasIs500000IfOk (convertNumericFields
        ({ enrichBase hi sw envA pp with
            value := some (PyVal.intV 0), gas := some (PyVal.intV 500000) } : Tx))
      rcases hcv : convertNumericFields
          ({ enrichBase hi sw envA pp with
              value := some (PyVal.intV 0), gas := some (PyVal.intV 500000) } : Tx)
        with er2 | tx2
      · simp [gasIs500000IfOk]
      · simp only [gasIs500000IfOk]
        obtain ⟨_, _, _, _, hg, _, _, _⟩ := convertNumericFields_ok_spec hcv
        have hgg : convertField (some (PyVal.intV 500000)) = .ok tx2.gas := hg
        rw [convertField_intV_eq] at hgg
        injection hgg with hgg
        exact hgg.symm
  · have hresp2 : ({ envA with estGasApprove := .ok g } : Env).approveApiResp =
        envA.approveApiResp := rfl
    unfold build_tx_for_approve_trade_with_router
    rw [hresp2]
    rcases hresp : envA.approveApiResp with er | pp
    · rfl
    · rw [approveApiCont_ok, approveApiCont_ok, h1]
      show isOkB (convertNumericFields
          ({ enrichBase hi sw envA pp with
              value := some (PyVal.intV 0), gas := some (PyVal.intV 500000) } : Tx)) =
        isOkB (convertNumericFields
          ({ enrichBase hi sw envA pp with
              value := some (PyVal.intV 0), gas := some (PyVal.intV g) } : Tx))
      exact convertNumericFields_isOkB_gas
        { enrichBase hi sw envA pp with value := some (PyVal.intV 0) } 500000 g
  · unfold build_tx_for_swap
    rw [h3]
    rw [swapApiCont_ok, h2]
    unfold swapGasStep
    rw [if_pos h4]
    show gasIs500000IfSome (exceptToOption (convertNumericFields
      ({ enrichBase hi sw envS p with gas := some (PyVal.intV 500000) } : Tx)))
    rcases hcv : convertNumericFields
        ({ enrichBase hi sw envS p with gas := some (PyVal.intV 500000) } : Tx)
      with er2 | tx2
    · simp [exceptToOption, gasIs500000IfSome]
    · simp only [exceptToOption, gasIs500000IfSome]
      obtain ⟨_, _, _, _, hg, _, _, _⟩ := convertNumericFields_ok_spec hcv
      have hgg : convertField (some (PyVal.intV 500000)) = .ok tx2.gas := hg
      rw [convertField_intV_eq] at hgg
      injection hgg with hgg
      exact hgg.symm
  · unfold build_tx_for_swap
    rw [h3]
    rw [swapApiCont_ok, swapApiCont_ok, h2]
    rw [exceptToOption_isSome, exceptToOption_isSome]
    show isOkB (convertNumericFields (swapGasStep (enrichBase hi sw envS p)
        (Except.error e2))) =
      isOkB (convertNumericFields (swapGasStep (enrichBase hi sw envS p) (Except.ok g)))
    unfold swapGasStep
    rw [if_pos h4, if_pos h4]
    show isOkB (convertNumericFields
        ({ enrichBase hi sw envS p with gas := some (PyVal.intV 500000) } : Tx)) =
      isOkB (convertNumericFields
        ({ enrichBase hi sw envS p with gas := some (PyVal.intV g) } : Tx))
    exact convertNumericFields_isOkB_gas (enrichBase hi sw envS p) 500000 g

/-- C6 witness: both estimation calls fail; both builders still succeed
and install gas 500000. -/
theorem spec_c6_gas_fallback_witness :
    (envGasEstimateFails.estGasApprove = .error "no gas estimate" ∧
      envGasEstimateFails.estGasSwap = .error "no gas estimate" ∧
      envGasEstimateFails.swapApiResp = .ok { value := some (PyVal.strV "12") } ∧
      gasMissingOrZero (enrichBase hiW swW envGasEstimateFails
        { value := some (PyVal.strV "12") }) = true) ∧
    (gasIs500000IfOk (build_tx_for_approve_trade_with_router hiW swW envGasEstimateFails) ∧
      isOkB (build_tx_for_approve_trade_with_router hiW swW envGasEstimateFails) =
        isOkB (build_tx_for_approve_trade_with_router hiW swW
          { envGasEstimateFails with estGasApprove := .ok 21000 }) ∧
      gasIs500000IfSome (build_tx_for_swap hiW swW envGasEstimateFails) ∧
      (build_tx_for_swap hiW swW envGasEstimateFails).isSome =
        (build_tx_for_swap hiW swW
          { envGasEstimateFails with estGasSwap := .ok 21000 }).isSome) :=
  ⟨⟨by decide, by decide, by decide, by decide⟩,
    spec_c6_gas_fallback hiW swW envGasEstimateFails envGasEstimateFails
      "no gas estimate" "no gas estimate" 21000 { value := some (PyVal.strV "12") }
      (by decide) (by decide) (by decide) (by decide)⟩

lemma hexNatAux_some {cs : List Char} (h : ∀ c ∈ cs, c ∈ hexChars) :
    ∀ acc : Nat, ∃ n : Nat, hexNatAux cs acc = some n := by
  induction cs with
  | nil => exact fun acc => ⟨acc, rfl⟩
  | cons c cs ih =>
    intro acc
    have hc : c ∈ hexChars := h c (by simp)
    have hd : ∃ d, hexDigit? c = some d := by
      fin_cases hc <;> exact ⟨_, rfl⟩
    obtain ⟨d, hd⟩ := hd
    obtain ⟨n, hn⟩ := ih (fun x hx => h x (by simp [hx])) (acc * 16 + d)
    refine ⟨n, ?_⟩
    simp only [hexNatAux, hd]
    exact hn

lemma decNatAux_some {cs : List Char} (h : ∀ c ∈ cs, c ∈ decDigitChars) :
    ∀ acc : Nat, ∃ n : Nat, decNatAux cs acc = some n := by
  induction cs with
  | nil => exact fun acc => ⟨acc, rfl⟩
  | cons c cs ih =>
    intro acc
    have hc : c ∈ decDigitChars := h c (by simp)
    have hd : ∃ d, decDigit? c = some d := by
      fin_cases hc <;> exact ⟨_, rfl⟩
    obtain ⟨d, hd⟩ := hd
    obtain ⟨n, hn⟩ := ih (fun x hx => h x (by simp [hx])) (acc * 10 + d)
    refine ⟨n, ?_⟩
    simp only [decNatAux, hd]
    exact hn

lemma toIntField_hexStr {cs : List Char} (hne : cs ≠ []) (h : ∀ c ∈ cs, c ∈ hexChars) :
    ∃ n : Nat, toIntField (PyVal.strV (String.mk ('0' :: 'x' :: cs))) =
        .ok (PyVal.intV n) ∧ hexNat? cs = some n := by
  obtain ⟨n, hn⟩ := hexNatAux_some h 0
  have hq : hexNat? cs = some n := by
    rcases cs with _ | ⟨c, cs⟩
    · exact absurd rfl hne
    · exact hn
  refine ⟨n, ?_, hq⟩
  have hlist : (String.mk ('0' :: 'x' :: cs)).toList = '0' :: 'x' :: cs := rfl
  simp only [toIntField, hlist]
  rw [if_pos (by simp [startsWith0xL])]
  have h16 : pyIntOfString16 (String.mk ('0' :: 'x' :: cs)) = some (n : Int) := by
    show pyIntOfChars16 ('0' :: 'x' :: cs) = some (n : Int)
    simp only [pyIntOfChars16]
    rw [if_pos (by decide), hq]
    rfl
  rw [h16]
  rfl

lemma toIntField_decStr {cs : List Char} (hne : cs ≠ []) (h : ∀ c ∈ cs, c ∈ decDigitChars) :
    ∃ n : Nat, toIntField (PyVal.strV (String.mk cs)) = .ok (PyVal.intV n) ∧
      decNat? cs = some n := by
  obtain ⟨n, hn⟩ := decNatAux_some h 0
  rcases cs with _ | ⟨c1, rest⟩
  · exact absurd rfl hne
  have hq : decNat? (c1 :: rest) = some n := hn
  refine ⟨n, ?_, hq⟩
  have hc1 : c1 ∈ decDigitChars := h c1 (by simp)
  have hsw : startsWith0xL (c1 :: rest) = false := by
    rcases rest with _ | ⟨c2, rest2⟩
    · rfl
    · have hc2 : c2 ∈ decDigitChars := h c2 (by simp)
      simp only [startsWith0xL]
      fin_cases hc2 <;> simp
  have hminus : (c1 == '-') = false := by fin_cases hc1 <;> decide
  have hplus : (c1 == '+') = false := by fin_cases hc1 <;> decide
  have hlist : (String.mk (c1 :: rest)).toList = c1 :: rest := rfl
  simp only [toIntField, hlist, hsw]
  rw [if_neg (by simp)]
  have hps : pyIntOfString (String.mk (c1 :: rest)) = some (n : Int) := by
    show pyIntOfCharsDec (c1 :: rest) = some (n : Int)
    simp only [pyIntOfCharsDec, hminus, hplus]
    rw [if_neg (by simp), if_neg (by simp), hq]
    rfl
  rw [hps]
  rfl

/-- C7: every transaction either builder returns has each present
numeric field (gas, gasPrice, value, nonce) normalized to a native
integer, and the normalization accepts exactly the three supplied forms:
a native int is kept, a 0x-prefixed string parses in base 16 (via
`hexNat?`), and a digit string parses in base 10 (via `decNat?`). -/
theorem spec_c7_numeric_fields_int (hi : HashF) (sw : InchSwapper) (env : Env)
    (atx stx : Tx) (z : Int) (cs1 cs2 : List Char)
    (hb1 : build_tx_for_approve_trade_with_router hi sw env = .ok atx)
    (hb2 : build_tx_for_swap hi sw env = some stx)
    (hne1 : cs1 ≠ []) (hhex : ∀ c ∈ cs1, c ∈ hexChars)
    (hne2 : cs2 ≠ []) (hdec : ∀ c ∈ cs2, c ∈ decDigitChars) :
    numericFieldsInt atx ∧ numericFieldsInt stx ∧
      toIntField (PyVal.intV z) = .ok (PyVal.intV z) ∧
      (∃ n : Nat, toIntField (PyVal.strV (String.mk ('0' :: 'x' :: cs1))) =
        .ok (PyVal.intV n) ∧ hexNat? cs1 = some n) ∧
      (∃ n : Nat, toIntField (PyVal.strV (String.mk cs2)) = .ok (PyVal.intV n) ∧
        decNat? cs2 = some n) := by
  refine ⟨?_, ?_, rfl, toIntField_hexStr hne1 hhex, toIntField_decStr hne2 hdec⟩
  · unfold build_tx_for_approve_trade_with_router at hb1
    rcases hresp : env.approveApiResp with er | pp <;> rw [hresp] at hb1
    · exact absurd hb1 (by simp [approveApiCont])
    · rw [approveApiCont_ok] at hb1
      exact convertNumericFields_ok_int hb1
  · unfold build_tx_for_swap at hb2
    rcases hresp : env.swapApiResp with er | pp <;> rw [hresp] at hb2
    · exact absurd hb2 (by simp [swapApiCont, exceptToOption])
    · rw [swapApiCont_ok] at hb2
      rcases hcv : convertNumericFields (swapGasStep (enrichBase hi sw env pp)
          env.estGasSwap) with er2 | t2 <;> rw [hcv] at hb2
      · exact absurd hb2 (by simp [exceptToOption])
      · simp only [exceptToOption] at hb2
        injection hb2 with hb2
        rw [← hb2]
        exact convertNumericFields_ok_int hcv

/-- C7 witness: the successful environment, whose payloads supply
gasPrice as the hex string "0x1A" and value as the decimal string "12",
plus concrete parses of 0x1A and 26. -/
theorem spec_c7_numeric_fields_int_witness :
    (build_tx_for_approve_trade_with_router hiW swW envBase =
        .ok ⟨Option.none, some (PyVal.strV "0xWallet"), Option.none, some (PyVal.intV 0),
          some (PyVal.intV 21000), some (PyVal.intV 26), some (PyVal.intV 7),
          some (PyVal.intV 1)⟩ ∧
      build_tx_for_swap hiW swW envBase =
        some ⟨Option.none, some (PyVal.strV "0xWallet"), Option.none, some (PyVal.intV 12),
          some (PyVal.intV 30000), Option.none, some (PyVal.intV 7),
          some (PyVal.intV 1)⟩ ∧
      (['1', 'A'] : List Char) ≠ [] ∧ (∀ c ∈ (['1', 'A'] : List Char), c ∈ hexChars) ∧
      (['2', '6'] : List Char) ≠ [] ∧
      (∀ c ∈ (['2', '6'] : List Char), c ∈ decDigitChars)) ∧
    (numericFieldsInt ⟨Option.none, some (PyVal.strV "0xWallet"), Option.none,
        some (PyVal.intV 0), some (PyVal.intV 21000), some (PyVal.intV 26),
        some (PyVal.intV 7), some (PyVal.intV 1)⟩ ∧
      numericFieldsInt ⟨Option.none, some (PyVal.strV "0xWallet"), Option.none,
        some (PyVal.intV 12), some (PyVal.intV 30000), Option.none, some (PyVal.intV 7),
        some (PyVal.intV 1)⟩ ∧
      toIntField (PyVal.intV 9) = .ok (PyVal.intV 9) ∧
      (∃ n : Nat, toIntField (PyVal.strV (String.mk ('0' :: 'x' :: ['1', 'A']))) =
        .ok (PyVal.intV n) ∧ hexNat? ['1', 'A'] = some n) ∧
      (∃ n : Nat, toIntField (PyVal.strV (String.mk ['2', '6'])) = .ok (PyVal.intV n) ∧
        decNat? ['2', '6'] = some n)) :=
  ⟨⟨by decide, by decide, by decide, by decide, by decide, by decide⟩,
    spec_c7_numeric_fields_int hiW swW envBase
      ⟨Option.none, some (PyVal.strV "0xWallet"), Option.none, some (PyVal.intV 0),
        some (PyVal.intV 21000), some (PyVal.intV 26), some (PyVal.intV 7),
        some (PyVal.intV 1)⟩
      ⟨Option.none, some (PyVal.strV "0xWallet"), Option.none, some (PyVal.intV 12),
        some (PyVal.intV 30000), Option.none, some (PyVal.intV 7), some (PyVal.intV 1)⟩
      9 ['1', 'A'] ['2', '6'] (by decide) (by decide) (by decide) (by decide)
      (by decide) (by decide)⟩

lemma toLower_self_of_lowerHex {c : Char} (h : c ∈ lowerHexChars) : c.toLower = c := by
  fin_cases h <;> decide

lemma toLower_toUpper_of_lowerHex {c : Char} (h : c ∈ lowerHexChars) :
    c.toUpper.toLower = c := by
  fin_cases h <;> decide

lemma toLower_mem_lowerHex {c : Char} (h : c ∈ hexChars) : c.toLower ∈ lowerHexChars := by
  fin_cases h <;> decide

lemma map_toLower_self {l : List Char} (h : ∀ c ∈ l, c ∈ lowerHexChars) :
    l.map Char.toLower = l := by
  induction l with
  | nil => rfl
  | cons c cs ih =>
    simp only [List.map_cons]
    rw [toLower_self_of_lowerHex (h c (by simp)), ih (fun x hx => h x (by simp [hx]))]

lemma map_toLower_eip55 (hi : Nat → Bool) (i : Nat) {l : List Char}
    (h : ∀ c ∈ l, c ∈ lowerHexChars) :
    (eip55Apply hi i l).map Char.toLower = l := by
  induction l generalizing i with
  | nil => rfl
  | cons c cs ih =>
    simp only [eip55Apply, List.map_cons]
    have hc := h c (by simp)
    have hcs : ∀ x ∈ cs, x ∈ lowerHexChars := fun x hx => h x (by simp [hx])
    by_cases hb : hi i
    · rw [if_pos hb, toLower_toUpper_of_lowerHex hc]
      rw [ih _ hcs]
    · rw [if_neg hb, toLower_self_of_lowerHex hc]
      rw [ih _ hcs]

lemma mem_lower_of_map {body : List Char} (h : ∀ c ∈ body, c ∈ hexChars) :
    ∀ c ∈ body.map Char.toLower, c ∈ lowerHexChars := by
  intro c hc
  rcases List.mem_map.mp hc with ⟨d, hd, rfl⟩
  exact toLower_mem_lowerHex (h d hd)

/-- C8: address canonicalization is idempotent and case-insensitive: for
any keccak nibble-hash `hi` and any hex body, re-canonicalizing the
canonical form returns it unchanged, and canonicalizing the all-lowercase
form gives the same result as canonicalizing the original mixed-case
form.  (Addresses are embedded as their character lists; the `String`
wrapper `to_checksum_address` is `to_checksum_addressL` on `toList`.) -/
theorem spec_c8_checksum_idempotent (hi : HashF) (body : List Char)
    (hb : ∀ c ∈ body, c ∈ hexChars) :
    to_checksum_addressL hi (to_checksum_addressL hi ('0' :: 'x' :: body)) =
        to_checksum_addressL hi ('0' :: 'x' :: body) ∧
      to_checksum_addressL hi (('0' :: 'x' :: body).map Char.toLower) =
        to_checksum_addressL hi ('0' :: 'x' :: body) := by
  have hB : ∀ c ∈ body.map Char.toLower, c ∈ lowerHexChars := mem_lower_of_map hb
  have h1 : to_checksum_addressL hi ('0' :: 'x' :: body) =
      '0' :: 'x' :: eip55Apply (hi (body.map Char.toLower)) 0 (body.map Char.toLower) := by
    simp only [to_checksum_addressL, startsWith0xL, web3ToChecksumAddressL, List.map_cons,
      List.drop_succ_cons, List.drop_zero, if_pos]
    rw [map_toLower_self hB]
    simp
  constructor
  · rw [h1]
    simp only [to_checksum_addressL, startsWith0xL, web3ToChecksumAddressL, List.map_cons,
      List.drop_succ_cons, List.drop_zero, if_pos]
    rw [map_toLower_eip55 _ _ hB, map_toLower_self hB]
    simp
  · rw [h1]
    simp only [to_checksum_addressL, startsWith0xL, web3ToChecksumAddressL, List.map_cons,
      List.drop_succ_cons, List.drop_zero, if_pos]
    rw [map_toLower_self hB, map_toLower_self hB]
    simp

/-- C8 witness: the mixed-case body "aB" canonicalizes idempotently and
case-insensitively under a concrete hash. -/
theorem spec_c8_checksum_idempotent_witness :
    (∀ c ∈ (['a', 'B'] : List Char), c ∈ hexChars) ∧
      (to_checksum_addressL hiW (to_checksum_addressL hiW ('0' :: 'x' :: ['a', 'B'])) =
          to_checksum_addressL hiW ('0' :: 'x' :: ['a', 'B']) ∧
        to_checksum_addressL hiW (('0' :: 'x' :: ['a', 'B']).map Char.toLower) =
          to_checksum_addressL hiW ('0' :: 'x' :: ['a', 'B'])) :=
  ⟨by decide, spec_c8_checksum_idempotent hiW ['a', 'B'] (by decide)⟩
